import Mathlib

/-
Verification of the OI signal engine of the open-ta repository
(backend/app/signals/oi_signal_engine.py), shallowly embedded in Lean.
Python floats are modelled as rationals (ℚ); Python ints as Int;
division by zero raised as ZeroDivisionError is modelled with Option.
-/

namespace OpenTA

/-- Threshold `min_iv` from OISignalEngine.__init__ (15.0). -/
def min_iv_threshold : ℚ := 15

/-- Threshold `strong_oi_change` from OISignalEngine.__init__ (20.0). -/
def strong_oi_change_threshold : ℚ := 20

/-- Threshold `medium_oi_change` from OISignalEngine.__init__ (10.0). -/
def medium_oi_change_threshold : ℚ := 10

/-- Threshold `min_oi_absolute` from OISignalEngine.__init__ (1000). -/
def min_oi_absolute : Int := 1000

/-- The weekday_names list of get_detailed_market_status (Monday = index 0). -/
def weekday_names : List String :=
  ["Monday", "Tuesday", "Wednesday", "Thursday", "Friday", "Saturday", "Sunday"]

/-- The weekday-dependent part of the dictionary returned by
OISignalEngine.get_detailed_market_status: the current day name, the
is_trading_day flag, the next_trading_day name, the internal
days_until_next variable, and the reported days_until_next_trading
(which the code sets to `days_until_next if not is_trading_day else 0`). -/
structure MarketStatusInfo where
  current_day : String
  is_trading_day : Bool
  next_trading_day : String
  days_until_next : Nat
  days_until_next_trading : Nat
deriving DecidableEq

/-- OISignalEngine.get_detailed_market_status restricted to its pure,
weekday-dependent fields (current_weekday: Monday = 0 .. Sunday = 6). -/
def get_detailed_market_status (current_weekday : Nat) : MarketStatusInfo :=
  let current_day_name := weekday_names.getD current_weekday "Unknown"
  let is_trading_day : Bool := current_weekday ≤ 4
  let next_pair : String × Nat :=
    if current_weekday = 4 then ("Monday", 3)
    else if current_weekday = 5 then ("Monday", 2)
    else if current_weekday = 6 then ("Monday", 1)
    else (weekday_names.getD (current_weekday + 1) "Unknown", 1)
  { current_day := current_day_name
    is_trading_day := is_trading_day
    next_trading_day := next_pair.1
    days_until_next := next_pair.2
    days_until_next_trading := if ¬ is_trading_day then next_pair.2 else 0 }

/-- OISignalEngine.calculate_oi_change_percent. -/
def calculate_oi_change_percent (current_oi previous_oi : Int) : ℚ :=
  if previous_oi = 0 then 0
  else ((current_oi : ℚ) - (previous_oi : ℚ)) / (previous_oi : ℚ) * 100

/-- The body of the try-block of OISignalEngine.calculate_implied_volatility,
before the final clamp. `none` models a ZeroDivisionError (Python raises it
when the divisor `strike` is 0 in any branch that divides). -/
def calculate_implied_volatility_body (current_price strike : ℚ)
    (option_type : String) : Option ℚ :=
  if option_type = "CE" ∨ option_type = "CALL" then
    if current_price > strike then
      if strike = 0 then none
      else some (min (((current_price - strike) / strike) * 100) 100)
    else
      if strike = 0 then none
      else some (max ((strike - current_price) / strike * 50) 5)
  else if option_type = "PE" ∨ option_type = "PUT" then
    if current_price < strike then
      if strike = 0 then none
      else some (min (((strike - current_price) / strike) * 100) 100)
    else
      if strike = 0 then none
      else some (max ((current_price - strike) / strike * 50) 5)
  else
    some 15

/-- OISignalEngine.calculate_implied_volatility: the try-block result is
clamped with `max(min(iv, 200), 0)`; the except-path returns 15.0. -/
def calculate_implied_volatility (current_price strike : ℚ)
    (option_type : String) : ℚ :=
  match calculate_implied_volatility_body current_price strike option_type with
  | some iv => max (min iv 200) 0
  | none => 15

/-- OISignalEngine.determine_signal_strength. -/
def determine_signal_strength (oi_change_percent iv : ℚ)
    (oi_change_abs : Int) : String :=
  if |oi_change_percent| ≥ strong_oi_change_threshold ∧
      iv ≥ min_iv_threshold ∧ |oi_change_abs| ≥ min_oi_absolute then
    "STRONG"
  else if |oi_change_percent| ≥ medium_oi_change_threshold ∧
      iv ≥ min_iv_threshold then
    "MEDIUM"
  else
    "WEAK"

/-- OISignalEngine.determine_signal_type. -/
def determine_signal_type (oi_change : Int) (option_type : String) : String :=
  if option_type = "CE" ∨ option_type = "CALL" then
    if oi_change > 0 then "BULLISH" else "BEARISH"
  else if option_type = "PE" ∨ option_type = "PUT" then
    if oi_change > 0 then "BEARISH" else "BULLISH"
  else
    if oi_change > 0 then "BULLISH" else "BEARISH"

/-- Whether the first character list starts the second one. -/
def listStartsWith : List Char → List Char → Bool
  | [], _ => true
  | _ :: _, [] => false
  | c :: cs, d :: ds => c = d && listStartsWith cs ds

/-- Whether the first character list occurs contiguously in the second. -/
def occursIn (needle : List Char) : List Char → Bool
  | [] => needle.isEmpty
  | d :: ds => listStartsWith needle (d :: ds) || occursIn needle ds

/-- Python substring membership `needle in hay` for strings. -/
def strOccurs (needle hay : String) : Bool :=
  occursIn needle.toList hay.toList

/-- A market_data row as used by analyze_token_oi: only the `oi` and `ltp`
columns feed the pure computation. -/
structure OIRow where
  oi : Int
  ltp : ℚ
deriving DecidableEq

/-- The fields of a TradingInstrument row that analyze_token_oi reads. -/
structure TradingInstrument where
  symbol : String
  strike : Option ℚ
  exch_seg : String
  instrumenttype : String
  name : String
deriving DecidableEq

/-- The signal_data dictionary built by analyze_token_oi (the timestamp is
left out: it is wall-clock time). -/
structure SignalData where
  token : String
  symbol : String
  current_oi : Int
  previous_oi : Int
  oi_change : Int
  oi_change_percent : ℚ
  current_price : ℚ
  implied_volatility : ℚ
  signal_strength : String
  signal_type : String
  exchange : String
  instrument_type : String
  underlying : String
  strike_price : Option ℚ
  option_type : String
  analysis_window : String
deriving DecidableEq

/-- The option_type classification in analyze_token_oi: starts at FUTURE,
becomes CE if the symbol contains "CE", else PE if it contains "PE". -/
def optionTypeOfSymbol (symbol : String) : String :=
  if strOccurs "CE" symbol then "CE"
  else if strOccurs "PE" symbol then "PE"
  else "FUTURE"

/-- Python `instrument.strike or current_price`: None and 0.0 are falsy. -/
def strikeOrPrice (strike : Option ℚ) (current_price : ℚ) : ℚ :=
  match strike with
  | none => current_price
  | some s => if s = 0 then current_price else s

/-- The pure core of OISignalEngine.analyze_token_oi, given the two
most-recent market_data rows (current first) and the instrument row; the
early returns on fewer than two rows or a missing instrument are the
callers obligation. Returns `none` when the IV hard filter rejects. -/
def analyze_token_oi (token : String) (current previous : OIRow)
    (instrument : TradingInstrument) : Option SignalData :=
  let current_oi := current.oi
  let previous_oi := previous.oi
  let oi_change := current_oi - previous_oi
  let oi_change_percent := calculate_oi_change_percent current_oi previous_oi
  let current_price := current.ltp
  let option_type := optionTypeOfSymbol instrument.symbol
  let iv := calculate_implied_volatility current_price
    (strikeOrPrice instrument.strike current_price) option_type
  if iv < min_iv_threshold then none
  else
    some { token := token
           symbol := instrument.symbol
           current_oi := current_oi
           previous_oi := previous_oi
           oi_change := oi_change
           oi_change_percent := oi_change_percent
           current_price := current_price
           implied_volatility := iv
           signal_strength := determine_signal_strength oi_change_percent iv |oi_change|
           signal_type := determine_signal_type oi_change option_type
           exchange := instrument.exch_seg
           instrument_type := instrument.instrumenttype
           underlying := instrument.name
           strike_price := instrument.strike
           option_type := option_type
           analysis_window := "5m" }

/-- The fields of a stored OISignal row that calculate_market_analytics
reads back from the database. -/
structure OISignal where
  token : String
  underlying : String
  option_type : String
  oi_change : Int
  signal_type : String
  implied_volatility : ℚ
  exchange : String
deriving DecidableEq

/-- The analytics dictionary built by calculate_market_analytics for one
underlying (the timestamp and the constant session_type are left out). -/
structure OIAnalytics where
  underlying : String
  total_oi_change : Int
  call_oi_change : Int
  put_oi_change : Int
  max_call_oi_change : Int
  max_put_oi_change : Int
  max_call_oi_token : String
  max_put_oi_token : String
  avg_iv : ℚ
  max_iv : ℚ
  high_iv_count : Nat
  pcr_oi : ℚ
  market_sentiment : String
  sentiment_score : ℚ
  exchange : String
deriving DecidableEq

/-- Python `max(signals, key=lambda x: abs(x.oi_change), default=None)`:
the first signal with maximal |oi_change|, None on an empty list. -/
def maxByAbsOIChange (l : List OISignal) : Option OISignal :=
  l.foldl
    (fun acc s =>
      match acc with
      | none => some s
      | some b => if |s.oi_change| > |b.oi_change| then some s else some b)
    none

/-- Python `max(s.implied_volatility for s in signals)` on a nonempty list
(the 0 default is unreachable: the caller only evaluates it when the list
of recent signals is nonempty). -/
def maxIVOf (l : List OISignal) : ℚ :=
  match l with
  | [] => 0
  | s :: t => t.foldl (fun m x => max m x.implied_volatility) s.implied_volatility

/-- The per-underlying body of OISignalEngine.calculate_market_analytics,
given the recent signals of that underlying from the trailing 5-minute
window. `none` models the `continue` taken when no recent signal exists.
The single if/elif/else of the source assigns sentiment and
sentiment_score together; here the same conditions appear once per
variable. -/
def calculate_market_analytics (underlying : String)
    (recent_signals : List OISignal) : Option OIAnalytics :=
  match recent_signals with
  | [] => none
  | s0 :: _ =>
    let call_signals := recent_signals.filter (fun s => s.option_type = "CE")
    let put_signals := recent_signals.filter (fun s => s.option_type = "PE")
    let total_call_oi_change := (call_signals.map (fun s => s.oi_change)).sum
    let total_put_oi_change := (put_signals.map (fun s => s.oi_change)).sum
    let max_call_signal := maxByAbsOIChange call_signals
    let max_put_signal := maxByAbsOIChange put_signals
    let bullish_signals :=
      (recent_signals.filter (fun s => s.signal_type = "BULLISH")).length
    let bearish_signals :=
      (recent_signals.filter (fun s => s.signal_type = "BEARISH")).length
    let sentiment : String :=
      if bullish_signals > bearish_signals then "BULLISH"
      else if bearish_signals > bullish_signals then "BEARISH"
      else "NEUTRAL"
    let sentiment_score : ℚ :=
      if bullish_signals > bearish_signals then
        ((bullish_signals : ℚ) - (bearish_signals : ℚ)) / (recent_signals.length : ℚ)
      else if bearish_signals > bullish_signals then
        ((bearish_signals : ℚ) - (bullish_signals : ℚ)) / (recent_signals.length : ℚ) * (-1)
      else 0
    some { underlying := underlying
           total_oi_change := total_call_oi_change + total_put_oi_change
           call_oi_change := total_call_oi_change
           put_oi_change := total_put_oi_change
           max_call_oi_change :=
             match max_call_signal with
             | some s => s.oi_change
             | none => 0
           max_put_oi_change :=
             match max_put_signal with
             | some s => s.oi_change
             | none => 0
           max_call_oi_token :=
             match max_call_signal with
             | some s => s.token
             | none => ""
           max_put_oi_token :=
             match max_put_signal with
             | some s => s.token
             | none => ""
           avg_iv :=
             (recent_signals.map (fun s => s.implied_volatility)).sum /
               (recent_signals.length : ℚ)
           max_iv := maxIVOf recent_signals
           high_iv_count :=
             (recent_signals.filter (fun s => s.implied_volatility > 15)).length
           pcr_oi :=
             if total_call_oi_change ≠ 0 then
               |(total_put_oi_change : ℚ) / (total_call_oi_change : ℚ)|
             else 0
           market_sentiment := sentiment
           sentiment_score := sentiment_score
           exchange := s0.exchange }

/-- Modelled from the spec sentence behind claim C1, for comparison with
the source definition: the sum of oi_change over ALL signals of the
window, futures included. -/
def spec_total_oi_change_all (recent_signals : List OISignal) : Int :=
  (recent_signals.map (fun s => s.oi_change)).sum

/-! ## Theorems for the claims -/

/-- C2 counterexample: on Friday (weekday 4) the detailed market status
names Monday as next_trading_day but reports days_until_next_trading = 0,
not the 3 the claim states for Friday, because the code overrides the
computed value with 0 on every trading day (Monday to Friday). -/
theorem C2_friday_reports_zero_counterexample :
    (get_detailed_market_status 4).next_trading_day = "Monday" ∧
    (get_detailed_market_status 4).days_until_next_trading = 0 ∧
    (get_detailed_market_status 4).days_until_next_trading ≠ 3 := by decide

/-- C2 amended: per weekday (Monday = 0), next_trading_day is the next
weekday name for Monday to Thursday and Monday for Friday to Sunday; the
internal days-until value is 1 for Monday to Thursday, 3 for Friday, 2 for
Saturday and 1 for Sunday; but the REPORTED days_until_next_trading is 0 on
every trading day (Monday to Friday, so also Friday), and equals the
internal value only on Saturday (2) and Sunday (1). -/
theorem C2_next_trading_day_table :
    ((get_detailed_market_status 0).next_trading_day = "Tuesday" ∧
      (get_detailed_market_status 0).days_until_next = 1 ∧
      (get_detailed_market_status 0).days_until_next_trading = 0 ∧
      (get_detailed_market_status 0).is_trading_day = true) ∧
    ((get_detailed_market_status 1).next_trading_day = "Wednesday" ∧
      (get_detailed_market_status 1).days_until_next = 1 ∧
      (get_detailed_market_status 1).days_until_next_trading = 0 ∧
      (get_detailed_market_status 1).is_trading_day = true) ∧
    ((get_detailed_market_status 2).next_trading_day = "Thursday" ∧
      (get_detailed_market_status 2).days_until_next = 1 ∧
      (get_detailed_market_status 2).days_until_next_trading = 0 ∧
      (get_detailed_market_status 2).is_trading_day = true) ∧
    ((get_detailed_market_status 3).next_trading_day = "Friday" ∧
      (get_detailed_market_status 3).days_until_next = 1 ∧
      (get_detailed_market_status 3).days_until_next_trading = 0 ∧
      (get_detailed_market_status 3).is_trading_day = true) ∧
    ((get_detailed_market_status 4).next_trading_day = "Monday" ∧
      (get_detailed_market_status 4).days_until_next = 3 ∧
      (get_detailed_market_status 4).days_until_next_trading = 0 ∧
      (get_detailed_market_status 4).is_trading_day = true) ∧
    ((get_detailed_market_status 5).next_trading_day = "Monday" ∧
      (get_detailed_market_status 5).days_until_next = 2 ∧
      (get_detailed_market_status 5).days_until_next_trading = 2 ∧
      (get_detailed_market_status 5).is_trading_day = false) ∧
    ((get_detailed_market_status 6).next_trading_day = "Monday" ∧
      (get_detailed_market_status 6).days_until_next = 1 ∧
      (get_detailed_market_status 6).days_until_next_trading = 1 ∧
      (get_detailed_market_status 6).is_trading_day = false) := by decide

/-- C7: determine_signal_type is BULLISH for CE exactly when oi_change > 0
and BEARISH otherwise, the mirror for PE, and the CE behaviour again for
FUTURE. -/
theorem C7_signal_type_by_option_type (c : Int) :
    determine_signal_type c "CE" = (if c > 0 then "BULLISH" else "BEARISH") ∧
    determine_signal_type c "PE" = (if c > 0 then "BEARISH" else "BULLISH") ∧
    determine_signal_type c "FUTURE" = (if c > 0 then "BULLISH" else "BEARISH") := by
  refine ⟨?_, ?_, ?_⟩ <;> simp [determine_signal_type]

/-- C8: calculate_oi_change_percent returns 0 when previous_oi is 0 and
((current − previous)/previous) × 100 otherwise. -/
theorem C8_oi_change_percent_spec (current_oi previous_oi : Int) :
    (previous_oi = 0 → calculate_oi_change_percent current_oi previous_oi = 0) ∧
    (previous_oi ≠ 0 →
      calculate_oi_change_percent current_oi previous_oi =
        ((current_oi : ℚ) - (previous_oi : ℚ)) / (previous_oi : ℚ) * 100) := by
  constructor
  · intro h
    simp [calculate_oi_change_percent, h]
  · intro h
    simp [calculate_oi_change_percent, h]

/-- C8 witness: the zero-divisor case at (7, 0) and the generic case at
(6200, 5000). -/
theorem C8_oi_change_percent_witness :
    calculate_oi_change_percent 7 0 = 0 ∧
    calculate_oi_change_percent 6200 5000 = ((6200 : ℚ) - 5000) / 5000 * 100 := by
  exact ⟨(C8_oi_change_percent_spec 7 0).1 rfl,
    (C8_oi_change_percent_spec 6200 5000).2 (by decide)⟩

/-- C3: for strike > 0, calculate_implied_volatility is the claimed
ITM/OTM case split for CE, the mirrored split for PE, and constant 15 for
any other option_type, the first two clamped to the range [0, 200] by
`max (min iv 200) 0`. -/
theorem C3_implied_volatility_formula (p s : ℚ) (ot : String) (h : 0 < s) :
    calculate_implied_volatility p s "CE" =
      max (min (if p > s then min (((p - s) / s) * 100) 100
                else max ((s - p) / s * 50) 5) 200) 0 ∧
    calculate_implied_volatility p s "PE" =
      max (min (if p < s then min (((s - p) / s) * 100) 100
                else max ((p - s) / s * 50) 5) 200) 0 ∧
    (ot ∉ (["CE", "CALL", "PE", "PUT"] : List String) →
      calculate_implied_volatility p s ot = 15) := by
  have hs : ¬ (s = 0) := h.ne'
  refine ⟨?_, ?_, ?_⟩
  · by_cases hps : p > s
    · simp [calculate_implied_volatility, calculate_implied_volatility_body, hs, hps]
    · simp [calculate_implied_volatility, calculate_implied_volatility_body, hs, hps]
  · by_cases hps : p < s
    · simp [calculate_implied_volatility, calculate_implied_volatility_body, hs, hps]
    · simp [calculate_implied_volatility, calculate_implied_volatility_body, hs, hps]
  · intro hot
    simp only [List.mem_cons, List.not_mem_nil, or_false, not_or] at hot
    obtain ⟨h1, h2, h3, h4⟩ := hot
    simp [calculate_implied_volatility, calculate_implied_volatility_body,
      h1, h2, h3, h4, min_def, max_def]
    norm_num

/-- C3 witness at price 105, strike 100: the CE formula instance and the
FUTURE constant. -/
theorem C3_implied_volatility_formula_witness :
    (0 : ℚ) < 100 ∧
    calculate_implied_volatility 105 100 "CE" =
      max (min (if (105 : ℚ) > 100 then min ((((105 : ℚ) - 100) / 100) * 100) 100
                else max (((100 : ℚ) - 105) / 100 * 50) 5) 200) 0 ∧
    calculate_implied_volatility 105 100 "FUTURE" = 15 := by
  exact ⟨by decide,
    (C3_implied_volatility_formula 105 100 "FUTURE" (by decide)).1,
    (C3_implied_volatility_formula 105 100 "FUTURE" (by decide)).2.2 (by decide)⟩

/-- C4: for every price, strike and option_type the result of
calculate_implied_volatility lies in [0, 200], and at strike = 0 it is the
default 15 (for CE and PE the division by zero is caught, for any other
option_type the constant branch never divides). -/
theorem C4_implied_volatility_safe (p s : ℚ) (ot : String) :
    0 ≤ calculate_implied_volatility p s ot ∧
    calculate_implied_volatility p s ot ≤ 200 ∧
    (s = 0 → calculate_implied_volatility p s ot = 15) := by
  refine ⟨?_, ?_, ?_⟩
  · unfold calculate_implied_volatility
    cases calculate_implied_volatility_body p s ot with
    | some iv => exact le_max_right _ _
    | none => norm_num
  · unfold calculate_implied_volatility
    cases calculate_implied_volatility_body p s ot with
    | some iv => exact max_le (min_le_right _ _) (by norm_num)
    | none => norm_num
  · intro hs
    subst hs
    unfold calculate_implied_volatility calculate_implied_volatility_body
    split_ifs <;> (simp_all [min_def, max_def]; try norm_num)

/-- C4 witness at price 5, strike 0, option_type CE. -/
theorem C4_implied_volatility_safe_witness :
    0 ≤ calculate_implied_volatility 5 0 "CE" ∧
    calculate_implied_volatility 5 0 "CE" ≤ 200 ∧
    calculate_implied_volatility 5 0 "CE" = 15 := by
  exact ⟨(C4_implied_volatility_safe 5 0 "CE").1,
    (C4_implied_volatility_safe 5 0 "CE").2.1,
    (C4_implied_volatility_safe 5 0 "CE").2.2 rfl⟩

/-- C5: whenever the implied volatility computed for the token is below
the 15.0 threshold, analyze_token_oi returns none, whatever the OI
change. -/
theorem C5_iv_hard_filter (token : String) (current previous : OIRow)
    (instrument : TradingInstrument)
    (h : calculate_implied_volatility current.ltp
        (strikeOrPrice instrument.strike current.ltp)
        (optionTypeOfSymbol instrument.symbol) < min_iv_threshold) :
    analyze_token_oi token current previous instrument = none := by
  exact if_pos h

/-- C5 witness: the end-to-end scenario of the claim: CE with strike 100,
previous_oi 5000, current_oi 6200, price 105 gives oi_change 1200,
oi_change_percent 24, implied volatility 5 < 15, so no signal. -/
theorem C5_iv_hard_filter_witness :
    analyze_token_oi "T1" ⟨6200, 105⟩ ⟨5000, 100⟩
      ⟨"NIFTY24000CE", some 100, "NFO", "OPTIDX", "NIFTY"⟩ = none ∧
    (6200 : Int) - 5000 = 1200 ∧
    calculate_oi_change_percent 6200 5000 = 24 ∧
    calculate_implied_volatility 105 100 "CE" = 5 := by
  have h5 : calculate_implied_volatility 105 100 "CE"
      = max (min (min ((((105 : ℚ) - 100) / 100) * 100) 100) 200) 0 := rfl
  refine ⟨C5_iv_hard_filter "T1" ⟨6200, 105⟩ ⟨5000, 100⟩ _ ?_, by decide, ?_, ?_⟩
  · show calculate_implied_volatility 105 100 "CE" < min_iv_threshold
    rw [h5]
    norm_num [min_iv_threshold, min_def, max_def]
  · norm_num [calculate_oi_change_percent]
  · rw [h5]
    norm_num [min_def, max_def]

/-- C6: determine_signal_strength is STRONG exactly on the conjunction of
the three inclusive thresholds, MEDIUM exactly when STRONG fails but the
two MEDIUM thresholds hold, and WEAK exactly otherwise. -/
theorem C6_signal_strength_characterization (p iv : ℚ) (a : Int) :
    (determine_signal_strength p iv a = "STRONG" ↔
      (|p| ≥ 20 ∧ iv ≥ 15 ∧ |a| ≥ 1000)) ∧
    (determine_signal_strength p iv a = "MEDIUM" ↔
      (¬(|p| ≥ 20 ∧ iv ≥ 15 ∧ |a| ≥ 1000) ∧ (|p| ≥ 10 ∧ iv ≥ 15))) ∧
    (determine_signal_strength p iv a = "WEAK" ↔
      (¬(|p| ≥ 20 ∧ iv ≥ 15 ∧ |a| ≥ 1000) ∧ ¬(|p| ≥ 10 ∧ iv ≥ 15))) := by
  have hsm : ("STRONG" : String) ≠ "MEDIUM" := by decide
  have hsw : ("STRONG" : String) ≠ "WEAK" := by decide
  have hms : ("MEDIUM" : String) ≠ "STRONG" := by decide
  have hmw : ("MEDIUM" : String) ≠ "WEAK" := by decide
  have hws : ("WEAK" : String) ≠ "STRONG" := by decide
  have hwm : ("WEAK" : String) ≠ "MEDIUM" := by decide
  unfold determine_signal_strength strong_oi_change_threshold
    medium_oi_change_threshold min_iv_threshold min_oi_absolute
  split_ifs with h1 h2 <;> simp_all

/-- C1 counterexample: with one CE signal (oi_change 10) and one FUTURE
signal (oi_change 100) in the window, the aggregated total_oi_change is
10, while the sum of oi_change over ALL signals — what the claim states —
is 110: the FUTURE signal is excluded from total_oi_change. -/
theorem C1_futures_excluded_counterexample :
    (calculate_market_analytics "NIFTY"
      [⟨"T1", "NIFTY", "CE", 10, "BULLISH", 20, "NFO"⟩,
       ⟨"T2", "NIFTY", "FUTURE", 100, "BULLISH", 16, "NFO"⟩]).map
        (fun a => a.total_oi_change) = some 10 ∧
    spec_total_oi_change_all
      [⟨"T1", "NIFTY", "CE", 10, "BULLISH", 20, "NFO"⟩,
       ⟨"T2", "NIFTY", "FUTURE", 100, "BULLISH", 16, "NFO"⟩] = 110 ∧
    (10 : Int) ≠ 110 := by
  exact ⟨rfl, rfl, by decide⟩

/-- C1 amended: for every nonempty signal window, total_oi_change equals
call_oi_change + put_oi_change, where call_oi_change sums oi_change over
the CE signals only and put_oi_change over the PE signals only; FUTURE
signals are excluded from total_oi_change just as from the partition. -/
theorem C1_total_oi_change_call_plus_put (u : String) (l : List OISignal)
    (h : l ≠ []) :
    (calculate_market_analytics u l).map (fun a => a.total_oi_change) =
      some (((l.filter (fun s => s.option_type = "CE")).map (fun s => s.oi_change)).sum
        + ((l.filter (fun s => s.option_type = "PE")).map (fun s => s.oi_change)).sum) ∧
    (calculate_market_analytics u l).map (fun a => a.call_oi_change) =
      some ((l.filter (fun s => s.option_type = "CE")).map (fun s => s.oi_change)).sum ∧
    (calculate_market_analytics u l).map (fun a => a.put_oi_change) =
      some ((l.filter (fun s => s.option_type = "PE")).map (fun s => s.oi_change)).sum := by
  match l with
  | [] => exact absurd rfl h
  | s0 :: t => exact ⟨rfl, rfl, rfl⟩

/-- C1 amended witness: one CE signal with oi_change 1200 gives
total 1200 = call 1200 + put 0. -/
theorem C1_total_oi_change_call_plus_put_witness :
    (calculate_market_analytics "NIFTY"
      [⟨"T3", "NIFTY", "CE", 1200, "BULLISH", 20, "NFO"⟩]).map
        (fun a => a.total_oi_change) = some 1200 ∧
    (calculate_market_analytics "NIFTY"
      [⟨"T3", "NIFTY", "CE", 1200, "BULLISH", 20, "NFO"⟩]).map
        (fun a => a.call_oi_change) = some 1200 ∧
    (calculate_market_analytics "NIFTY"
      [⟨"T3", "NIFTY", "CE", 1200, "BULLISH", 20, "NFO"⟩]).map
        (fun a => a.put_oi_change) = some 0 := by
  exact C1_total_oi_change_call_plus_put "NIFTY"
    [⟨"T3", "NIFTY", "CE", 1200, "BULLISH", 20, "NFO"⟩] (by decide)

/-- The call-side OI change aggregated over a signal window: the sum of
oi_change over its CE signals (an integer). -/
def call_oi_change_of (l : List OISignal) : Int :=
  ((l.filter (fun s => s.option_type = "CE")).map (fun s => s.oi_change)).sum

/-- The put-side OI change aggregated over a signal window: the sum of
oi_change over its PE signals (an integer). -/
def put_oi_change_of (l : List OISignal) : Int :=
  ((l.filter (fun s => s.option_type = "PE")).map (fun s => s.oi_change)).sum

/-- C9: for every nonempty signal window, pcr_oi is
|put_oi_change / call_oi_change| when call_oi_change is nonzero and 0
when it is zero, whatever put_oi_change is. -/
theorem C9_pcr_oi_spec (u : String) (l : List OISignal) (h : l ≠ []) :
    (calculate_market_analytics u l).map (fun a => a.pcr_oi) =
      some (if call_oi_change_of l ≠ 0 then
          |(put_oi_change_of l : ℚ) / (call_oi_change_of l : ℚ)|
        else 0) := by
  match l with
  | [] => exact absurd rfl h
  | s0 :: t => exact rfl

/-- C9 witness: a window with a lone PE signal of oi_change −3200 has
call_oi_change 0 and pcr_oi 0, with no division error. -/
theorem C9_pcr_oi_spec_witness :
    (calculate_market_analytics "NIFTY"
      [⟨"T3", "NIFTY", "PE", -3200, "BULLISH", 20, "NFO"⟩]).map
        (fun a => a.pcr_oi) = some 0 := by
  exact C9_pcr_oi_spec "NIFTY"
    [⟨"T3", "NIFTY", "PE", -3200, "BULLISH", 20, "NFO"⟩] (by decide)

/-- C10: for every nonempty signal window, with b the BULLISH count, r the
BEARISH count and n the total count: b > r gives sentiment BULLISH with
score (b − r)/n, r > b gives BEARISH with score −((r − b)/n), and b = r
gives NEUTRAL with score exactly 0. -/
theorem C10_market_sentiment_spec (u : String) (l : List OISignal) (h : l ≠ []) :
    ((l.filter (fun s => s.signal_type = "BULLISH")).length >
        (l.filter (fun s => s.signal_type = "BEARISH")).length →
      (calculate_market_analytics u l).map (fun a => a.market_sentiment) =
          some "BULLISH" ∧
      (calculate_market_analytics u l).map (fun a => a.sentiment_score) =
        some ((((l.filter (fun s => s.signal_type = "BULLISH")).length : ℚ)
          - ((l.filter (fun s => s.signal_type = "BEARISH")).length : ℚ))
            / (l.length : ℚ))) ∧
    ((l.filter (fun s => s.signal_type = "BEARISH")).length >
        (l.filter (fun s => s.signal_type = "BULLISH")).length →
      (calculate_market_analytics u l).map (fun a => a.market_sentiment) =
          some "BEARISH" ∧
      (calculate_market_analytics u l).map (fun a => a.sentiment_score) =
        some (-((((l.filter (fun s => s.signal_type = "BEARISH")).length : ℚ)
          - ((l.filter (fun s => s.signal_type = "BULLISH")).length : ℚ))
            / (l.length : ℚ)))) ∧
    ((l.filter (fun s => s.signal_type = "BULLISH")).length =
        (l.filter (fun s => s.signal_type = "BEARISH")).length →
      (calculate_market_analytics u l).map (fun a => a.market_sentiment) =
          some "NEUTRAL" ∧
      (calculate_market_analytics u l).map (fun a => a.sentiment_score) =
          some 0) := by
  match l with
  | [] => exact absurd rfl h
  | s0 :: t =>
    refine ⟨fun hbr => ⟨?_, ?_⟩, fun hrb => ⟨?_, ?_⟩, fun heq => ⟨?_, ?_⟩⟩
    · simp only [calculate_market_analytics, Option.map_some']
      rw [if_pos hbr]
    · simp only [calculate_market_analytics, Option.map_some']
      rw [if_pos hbr]
    · simp only [calculate_market_analytics, Option.map_some']
      rw [if_neg (Nat.lt_asymm hrb), if_pos hrb]
    · simp only [calculate_market_analytics, Option.map_some']
      rw [if_neg (Nat.lt_asymm hrb), if_pos hrb, mul_neg_one]
    · simp only [calculate_market_analytics, Option.map_some']
      rw [if_neg (by omega), if_neg (by omega)]
    · simp only [calculate_market_analytics, Option.map_some']
      rw [if_neg (by omega), if_neg (by omega)]

/-- C10 witness: one BULLISH and one BEARISH signal tie, so the sentiment
is NEUTRAL with score exactly 0. -/
theorem C10_market_sentiment_spec_witness :
    (calculate_market_analytics "NIFTY"
      [⟨"T1", "NIFTY", "CE", 10, "BULLISH", 20, "NFO"⟩,
       ⟨"T4", "NIFTY", "CE", -10, "BEARISH", 20, "NFO"⟩]).map
        (fun a => a.market_sentiment) = some "NEUTRAL" ∧
    (calculate_market_analytics "NIFTY"
      [⟨"T1", "NIFTY", "CE", 10, "BULLISH", 20, "NFO"⟩,
       ⟨"T4", "NIFTY", "CE", -10, "BEARISH", 20, "NFO"⟩]).map
        (fun a => a.sentiment_score) = some 0 := by
  exact (C10_market_sentiment_spec "NIFTY"
    [⟨"T1", "NIFTY", "CE", 10, "BULLISH", 20, "NFO"⟩,
     ⟨"T4", "NIFTY", "CE", -10, "BEARISH", 20, "NFO"⟩] (by decide)).2.2 rfl

end OpenTA
